import Mathlib

/-!
Verification of the `cdk-stack` infrastructure definition
(`cdk_stack/cdk_stack_stack.py`).

The repository is a declarative AWS CDK stack.  We shallowly embed the
resource declarations as Lean structures and build the stack exactly as
`CdkStackStack.__init__` does: each local variable of the constructor
(`food`, `user`, `dependency`, `food_suggestion_function_role`, ...)
becomes a Lean definition, and the stack value collects them.  Mutating
calls (`add_resource`, `add_method`, `attach_inline_policy`,
`grant_read`) are embedded by their final effect on the declared state.
-/

namespace CdkModel

/-- `aws_dynamodb.AttributeType`. -/
inductive AttributeType
  | STRING
  | NUMBER
  | BINARY
  deriving DecidableEq, Repr

/-- `aws_dynamodb.Attribute`: a key attribute (name and type). -/
structure Attribute where
  name : String
  type : AttributeType
  deriving DecidableEq, Repr

/-- `aws_cdk.RemovalPolicy`. -/
inductive RemovalPolicy
  | DESTROY
  | RETAIN
  deriving DecidableEq, Repr

/-- A `aws_dynamodb.Table` declaration. -/
structure Table where
  constructId : String
  table_name : String
  partition_key : Attribute
  sort_key : Option Attribute
  removal_policy : Option RemovalPolicy
  deriving DecidableEq, Repr

/-- `aws_lambda.Runtime` (only the value the stack uses). -/
inductive Runtime
  | PYTHON_3_12
  deriving DecidableEq, Repr

/-- A `aws_lambda.LayerVersion` declaration. -/
structure LayerVersion where
  constructId : String
  code : String
  compatible_runtimes : List Runtime
  description : String
  deriving DecidableEq, Repr

/-- An `aws_iam.Role` declaration; `inline_policies` records the policy
names attached by `attach_inline_policy`. -/
structure Role where
  constructId : String
  assumed_by : String
  managed_policies : List String
  inline_policies : List String
  deriving DecidableEq, Repr

/-- An `aws_iam.PolicyStatement`: action verbs and resource ARNs. -/
structure PolicyStatement where
  actions : List String
  resources : List String
  deriving DecidableEq, Repr

/-- An `aws_iam.Policy` declaration. -/
structure Policy where
  constructId : String
  policy_name : String
  statements : List PolicyStatement
  deriving DecidableEq, Repr

/-- A `aws_lambda.Function` declaration.  `layers` and `role` hold the
construct ids of the referenced resources. -/
structure LambdaFunction where
  constructId : String
  runtime : Runtime
  handler : String
  code : String
  layers : List String
  role : String
  deriving DecidableEq, Repr

/-- One `add_method` call on an API resource.  `integration` is the
construct id of the backing function; a method added without an explicit
integration uses the `LambdaRestApi` handler. -/
structure Method where
  http_method : String
  integration : String
  deriving DecidableEq, Repr

/-- One `add_resource` call on the API root: a path part together with
the methods registered on it. -/
structure ApiResource where
  path_part : String
  methods : List Method
  deriving DecidableEq, Repr

/-- The `default_cors_preflight_options` dictionary. -/
structure CorsOptions where
  allow_origins : List String
  allow_methods : List String
  allow_headers : List String
  deriving DecidableEq, Repr

/-- `aws_apigateway.Cors.ALL_ORIGINS`. -/
def Cors.ALL_ORIGINS : List String := ["*"]

/-- `aws_apigateway.Cors.ALL_METHODS`. -/
def Cors.ALL_METHODS : List String :=
  ["OPTIONS", "GET", "PUT", "POST", "DELETE", "PATCH", "HEAD"]

/-- `aws_apigateway.Cors.DEFAULT_HEADERS`. -/
def Cors.DEFAULT_HEADERS : List String :=
  ["Content-Type", "X-Amz-Date", "Authorization", "X-Api-Key",
   "X-Amz-Security-Token", "X-Amz-User-Agent"]

/-- An `aws_apigateway.LambdaRestApi` declaration.  `root_resources` is
the final list of resources added to the API root. -/
structure RestApi where
  constructId : String
  handler : String
  proxy : Bool
  default_cors_preflight_options : Option CorsOptions
  root_resources : List ApiResource
  deriving DecidableEq, Repr

/-- `aws_s3.BucketAccessControl` (only the values that matter here). -/
inductive BucketAccessControl
  | PRIVATE
  | PUBLIC_READ
  deriving DecidableEq, Repr

/-- An `aws_s3.Bucket` declaration. -/
structure Bucket where
  constructId : String
  access_control : Option BucketAccessControl
  removal_policy : Option RemovalPolicy
  auto_delete_objects : Bool
  deriving DecidableEq, Repr

/-- An `aws_cloudfront.OriginAccessIdentity` declaration. -/
structure OriginAccessIdentity where
  constructId : String
  deriving DecidableEq, Repr

/-- One `bucket.grant_read(grantee)` call: bucket and grantee ids. -/
structure ReadGrant where
  bucket : String
  grantee : String
  deriving DecidableEq, Repr

/-- An `aws_cloudfront_origins.S3Origin`: a bucket, optionally accessed
through an origin access identity. -/
structure S3Origin where
  bucket : String
  origin_access_identity : Option String
  deriving DecidableEq, Repr

/-- The `default_behavior` dictionary of a distribution. -/
structure Behavior where
  origin : S3Origin
  deriving DecidableEq, Repr

/-- An `aws_cloudfront.Distribution` declaration. -/
structure Distribution where
  constructId : String
  default_root_object : Option String
  default_behavior : Behavior
  deriving DecidableEq, Repr

/-- A `Distribution` declares origins only through its behaviors; here
the default behavior's origin is the sole one. -/
def Distribution.origins (d : Distribution) : List S3Origin :=
  [d.default_behavior.origin]

/-- An `aws_s3_deployment.BucketDeployment` declaration. -/
structure BucketDeployment where
  constructId : String
  destination_bucket : String
  sources : List String
  distribution : Option String
  distribution_paths : Option (List String)
  deriving DecidableEq, Repr

/-- The declared state of one stack: every resource the constructor
creates, by kind, together with the `self.region` / `self.account`
placeholders the ARN f-strings interpolate. -/
structure StackModel where
  region : String
  account : String
  tables : List Table
  layers : List LayerVersion
  roles : List Role
  policies : List Policy
  functions : List LambdaFunction
  rest_apis : List RestApi
  buckets : List Bucket
  origin_access_identities : List OriginAccessIdentity
  read_grants : List ReadGrant
  distributions : List Distribution
  bucket_deployments : List BucketDeployment
  deriving DecidableEq, Repr

/-- The f-string `arn:aws:dynamodb:{region}:{account}:table/{name}`. -/
def tableArn (region account name : String) : String :=
  "arn:aws:dynamodb:" ++ region ++ ":" ++ account ++ ":table/" ++ name

/-- `food = dynamodb.Table(self, 'Foods', ...)`. -/
def food : Table :=
  { constructId := "Foods"
    table_name := "Foods"
    partition_key := { name := "id", type := .STRING }
    sort_key := none
    removal_policy := some .DESTROY }

/-- `user = dynamodb.Table(self, 'Users', ...)`. -/
def user : Table :=
  { constructId := "Users"
    table_name := "Users"
    partition_key := { name := "id", type := .STRING }
    sort_key := none
    removal_policy := some .DESTROY }

/-- `dependency = _lambda.LayerVersion(self, 'LambdaLayer', ...)`. -/
def dependency : LayerVersion :=
  { constructId := "LambdaLayer"
    code := "lambda_layer.zip"
    compatible_runtimes := [.PYTHON_3_12]
    description := "A Lambda layer containing dependencies" }

/-- `food_suggestion_function_role = iam.Role(...)`, after the later
`attach_inline_policy(food_suggestion_function_policy)` call. -/
def food_suggestion_function_role : Role :=
  { constructId := "FoodSuggestionFunctionRole"
    assumed_by := "lambda.amazonaws.com"
    managed_policies := ["service-role/AWSLambdaBasicExecutionRole"]
    inline_policies := ["FoodSuggestionFunctionPolicy"] }

/-- The single `iam.PolicyStatement(...)` of the inline policy. -/
def food_suggestion_statement (region account : String) : PolicyStatement :=
  { actions :=
      ["dynamodb:GetItem", "dynamodb:PutItem", "dynamodb:UpdateItem",
       "dynamodb:DeleteItem", "dynamodb:Scan", "dynamodb:Query"]
    resources :=
      [tableArn region account "Metadata",
       tableArn region account "Foods",
       tableArn region account "Users"] }

/-- `food_suggestion_function_policy = iam.Policy(...)`. -/
def food_suggestion_function_policy (region account : String) : Policy :=
  { constructId := "FoodSuggestionFunctionPolicy"
    policy_name := "FoodSuggestionFunctionPolicy"
    statements := [food_suggestion_statement region account] }

/-- `food_suggestion_function = _lambda.Function(...)`. -/
def food_suggestion_function : LambdaFunction :=
  { constructId := "FoodSuggestionFunction"
    runtime := .PYTHON_3_12
    handler := "food_suggestion_function.handler"
    code := "lambda_functions"
    layers := ["LambdaLayer"]
    role := "FoodSuggestionFunctionRole" }

/-- `food_suggestion_resource = api_gateway.root.add_resource("food_suggestion")`
followed by the four `add_method` calls, each without an explicit
integration and hence backed by the API's handler function. -/
def food_suggestion_resource : ApiResource :=
  { path_part := "food_suggestion"
    methods :=
      [{ http_method := "GET", integration := "FoodSuggestionFunction" },
       { http_method := "PUT", integration := "FoodSuggestionFunction" },
       { http_method := "DELETE", integration := "FoodSuggestionFunction" },
       { http_method := "POST", integration := "FoodSuggestionFunction" }] }

/-- `api_gateway = apigateway.LambdaRestApi(self, 'AwsSiteApiGateway', ...)`,
after the `add_resource` / `add_method` calls. -/
def api_gateway : RestApi :=
  { constructId := "AwsSiteApiGateway"
    handler := "FoodSuggestionFunction"
    proxy := false
    default_cors_preflight_options :=
      some { allow_origins := Cors.ALL_ORIGINS
             allow_methods := Cors.ALL_METHODS
             allow_headers := Cors.DEFAULT_HEADERS }
    root_resources := [food_suggestion_resource] }

/-- `frontend_bucket = s3.Bucket(self, "ReactApplicationBucket", ...)`. -/
def frontend_bucket : Bucket :=
  { constructId := "ReactApplicationBucket"
    access_control := some .PRIVATE
    removal_policy := some .DESTROY
    auto_delete_objects := true }

/-- `origin_access_identity = cloudfront.OriginAccessIdentity(...)`. -/
def origin_access_identity : OriginAccessIdentity :=
  { constructId := "OriginAccessIdentity" }

/-- `distribution = cloudfront.Distribution(self, "Distribution", ...)`. -/
def distribution : Distribution :=
  { constructId := "Distribution"
    default_root_object := some "index.html"
    default_behavior :=
      { origin := { bucket := "ReactApplicationBucket"
                    origin_access_identity := some "OriginAccessIdentity" } } }

/-- `s3_deployment.BucketDeployment(self, "BucketDeployment", ...)`. -/
def bucket_deployment : BucketDeployment :=
  { constructId := "BucketDeployment"
    destination_bucket := "ReactApplicationBucket"
    sources := ["../aws-site-frontend/build"]
    distribution := some "Distribution"
    distribution_paths := some ["/*"] }

/-- The full declared state of `CdkStackStack(scope, construct_id)`. -/
def CdkStackStack (region account : String) : StackModel :=
  { region := region
    account := account
    tables := [food, user]
    layers := [dependency]
    roles := [food_suggestion_function_role]
    policies := [food_suggestion_function_policy region account]
    functions := [food_suggestion_function]
    rest_apis := [api_gateway]
    buckets := [frontend_bucket]
    origin_access_identities := [origin_access_identity]
    read_grants :=
      [{ bucket := "ReactApplicationBucket", grantee := "OriginAccessIdentity" }]
    distributions := [distribution]
    bucket_deployments := [bucket_deployment] }

/-- The ARNs of the tables a stack actually declares. -/
def declaredTableArns (s : StackModel) : List String :=
  s.tables.map fun t => tableArn s.region s.account t.table_name

/-- All resource ARNs granted by a stack's policies. -/
def grantedResources (s : StackModel) : List String :=
  (s.policies.flatMap Policy.statements).flatMap PolicyStatement.resources

/-- Modelled from the spec: the second stack variant (its stack file is
not under `src/`).  Per the spec it is built from the same five
components but declares a single table, `Metadata`, grants the compute
unit access to that one table only, and performs the asset upload
without binding the distribution, i.e. without cache invalidation. -/
def MetadataOnlyStack (region account : String) : StackModel :=
  { region := region
    account := account
    tables :=
      [{ constructId := "Metadata"
         table_name := "Metadata"
         partition_key := { name := "id", type := .STRING }
         sort_key := none
         removal_policy := some .DESTROY }]
    layers := [dependency]
    roles := [food_suggestion_function_role]
    policies :=
      [{ constructId := "FoodSuggestionFunctionPolicy"
         policy_name := "FoodSuggestionFunctionPolicy"
         statements :=
           [{ actions :=
                ["dynamodb:GetItem", "dynamodb:PutItem", "dynamodb:UpdateItem",
                 "dynamodb:DeleteItem", "dynamodb:Scan", "dynamodb:Query"]
              resources := [tableArn region account "Metadata"] }] }]
    functions := [food_suggestion_function]
    rest_apis := [api_gateway]
    buckets := [frontend_bucket]
    origin_access_identities := [origin_access_identity]
    read_grants :=
      [{ bucket := "ReactApplicationBucket", grantee := "OriginAccessIdentity" }]
    distributions := [distribution]
    bucket_deployments :=
      [{ constructId := "BucketDeployment"
         destination_bucket := "ReactApplicationBucket"
         sources := ["../aws-site-frontend/build"]
         distribution := none
         distribution_paths := none }] }

/-- The list of tables a stack declares, as declared: evaluation helper
shared by several proofs. -/
theorem CdkStackStack_tables_eq (region account : String) :
    (CdkStackStack region account).tables = [food, user] :=
  rfl

/-- The inline policy statements of the stack, as declared. -/
theorem CdkStackStack_statements_eq (region account : String) :
    (CdkStackStack region account).policies.flatMap Policy.statements =
      [food_suggestion_statement region account] :=
  rfl

/-- The REST APIs of the stack, as declared. -/
theorem CdkStackStack_rest_apis_eq (region account : String) :
    (CdkStackStack region account).rest_apis = [api_gateway] :=
  rfl

/-- The buckets of the stack, as declared. -/
theorem CdkStackStack_buckets_eq (region account : String) :
    (CdkStackStack region account).buckets = [frontend_bucket] :=
  rfl

/-- Claim C1: the claim says every PolicyStatement's resource ARN list is a
subset of (and exactly matches) the ARNs of the tables the stack declares.
It fails on the code: the inline policy grants the `Metadata` table ARN,
but the stack declares no `Metadata` table (only `Foods` and `Users`),
even though the stack's own docstring lists `Metadata` among the tables it
creates. -/
theorem C1_policy_grants_undeclared_table :
    tableArn "us-east-1" "123456789012" "Metadata" ∈
      grantedResources (CdkStackStack "us-east-1" "123456789012") ∧
    tableArn "us-east-1" "123456789012" "Metadata" ∉
      declaredTableArns (CdkStackStack "us-east-1" "123456789012") := by
  decide

/-- Claim C2: synthesizing the variant in the repository yields exactly one
Function, one RestApi with one child resource, one Bucket and one
Distribution, but only 2 tables — not the 3 the claim (and the stack's
docstring) state for the `Foods`/`Users`/`Metadata` variant. -/
theorem C2_resource_counts :
    (CdkStackStack "us-east-1" "123456789012").functions.length = 1 ∧
    (CdkStackStack "us-east-1" "123456789012").rest_apis.length = 1 ∧
    ((CdkStackStack "us-east-1" "123456789012").rest_apis.flatMap
        RestApi.root_resources).length = 1 ∧
    (CdkStackStack "us-east-1" "123456789012").buckets.length = 1 ∧
    (CdkStackStack "us-east-1" "123456789012").distributions.length = 1 ∧
    (CdkStackStack "us-east-1" "123456789012").tables.length = 2 ∧
    (CdkStackStack "us-east-1" "123456789012").tables.length ≠ 3 := by
  decide

/-- Claim C3: two independent stack variants built from the same five
components (storage tables, one compute function with its layer, one role,
one REST API, one bucket/distribution pipeline); the in-repository variant
grants access to three tables and wires cache invalidation into the
`BucketDeployment`, while the spec-modelled `Metadata`-only variant grants
access to one table and omits cache invalidation. -/
theorem C3_two_variants_divergence (region account : String) :
    ((CdkStackStack region account).tables.length = 2 ∧
     (CdkStackStack region account).functions.length = 1 ∧
     (CdkStackStack region account).layers.length = 1 ∧
     (CdkStackStack region account).roles.length = 1 ∧
     (CdkStackStack region account).rest_apis.length = 1 ∧
     (CdkStackStack region account).buckets.length = 1 ∧
     (CdkStackStack region account).distributions.length = 1) ∧
    ((MetadataOnlyStack region account).tables.length = 1 ∧
     (MetadataOnlyStack region account).functions.length = 1 ∧
     (MetadataOnlyStack region account).layers.length = 1 ∧
     (MetadataOnlyStack region account).roles.length = 1 ∧
     (MetadataOnlyStack region account).rest_apis.length = 1 ∧
     (MetadataOnlyStack region account).buckets.length = 1 ∧
     (MetadataOnlyStack region account).distributions.length = 1) ∧
    grantedResources (CdkStackStack region account) =
      [tableArn region account "Metadata",
       tableArn region account "Foods",
       tableArn region account "Users"] ∧
    grantedResources (MetadataOnlyStack region account) =
      [tableArn region account "Metadata"] ∧
    (CdkStackStack region account).bucket_deployments.map
        BucketDeployment.distribution = [some "Distribution"] ∧
    (CdkStackStack region account).bucket_deployments.map
        BucketDeployment.distribution_paths = [some ["/*"]] ∧
    (MetadataOnlyStack region account).bucket_deployments.map
        BucketDeployment.distribution = [none] :=
  ⟨⟨rfl, rfl, rfl, rfl, rfl, rfl, rfl⟩,
   ⟨rfl, rfl, rfl, rfl, rfl, rfl, rfl⟩,
   rfl, rfl, rfl, rfl, rfl⟩

/-- Claim C4: every resource declared on the RestApi registers exactly the
four methods GET, PUT, DELETE, POST, each backed by the single Function
declared in the stack. -/
theorem C4_every_resource_four_methods (region account : String) :
    (CdkStackStack region account).functions = [food_suggestion_function] ∧
    ∀ api ∈ (CdkStackStack region account).rest_apis,
      ∀ r ∈ api.root_resources,
        r.methods.map Method.http_method = ["GET", "PUT", "DELETE", "POST"] ∧
        ∀ m ∈ r.methods, m.integration = food_suggestion_function.constructId := by
  refine ⟨rfl, ?_⟩
  intro api hapi r hr
  rw [CdkStackStack_rest_apis_eq] at hapi
  simp only [List.mem_singleton] at hapi
  subst hapi
  simp only [api_gateway, List.mem_singleton] at hr
  subst hr
  exact ⟨rfl, by decide⟩

/-- Witness for C4 at a concrete region and account. -/
theorem C4_every_resource_four_methods_witness :
    api_gateway ∈ (CdkStackStack "us-east-1" "123456789012").rest_apis ∧
    food_suggestion_resource ∈ api_gateway.root_resources ∧
    food_suggestion_resource.methods.map Method.http_method =
      ["GET", "PUT", "DELETE", "POST"] :=
  ⟨by decide, by decide,
   ((C4_every_resource_four_methods "us-east-1" "123456789012").2 api_gateway
      (by decide) food_suggestion_resource (by decide)).1⟩

/-- Claim C5: the Bucket's access control is private, and the only read
grant on the Bucket goes to the OriginAccessIdentity. -/
theorem C5_bucket_private_oai_only (region account : String) :
    (CdkStackStack region account).buckets = [frontend_bucket] ∧
    frontend_bucket.access_control = some BucketAccessControl.PRIVATE ∧
    ((CdkStackStack region account).read_grants.filter
        fun g => g.bucket = frontend_bucket.constructId).map ReadGrant.grantee =
      [origin_access_identity.constructId] :=
  ⟨rfl, rfl, rfl⟩

/-- Claim C6: the Distribution's default root object is `index.html` and
its sole origin is the Bucket accessed through the OriginAccessIdentity. -/
theorem C6_distribution_root_and_origin (region account : String) :
    (CdkStackStack region account).distributions = [distribution] ∧
    distribution.default_root_object = some "index.html" ∧
    distribution.origins =
      [{ bucket := frontend_bucket.constructId
         origin_access_identity := some origin_access_identity.constructId }] :=
  ⟨rfl, rfl, rfl⟩

/-- Claim C7: the inline policy enumerates exactly the six item-level
actions (get/put/update/delete-item, scan, query), contains no wildcard in
its resource list (every resource is a literal table ARN over a star-free
table name), and grants no administrative table actions. -/
theorem C7_policy_actions_minimal (region account : String) :
    ∀ st ∈ (CdkStackStack region account).policies.flatMap Policy.statements,
      st.actions =
        ["dynamodb:GetItem", "dynamodb:PutItem", "dynamodb:UpdateItem",
         "dynamodb:DeleteItem", "dynamodb:Scan", "dynamodb:Query"] ∧
      "dynamodb:CreateTable" ∉ st.actions ∧
      "dynamodb:DeleteTable" ∉ st.actions ∧
      "dynamodb:*" ∉ st.actions ∧
      st.resources =
        ["Metadata", "Foods", "Users"].map (tableArn region account) ∧
      ∀ n ∈ ["Metadata", "Foods", "Users"], n ≠ "*" ∧ '*' ∉ n.data := by
  intro st hst
  rw [CdkStackStack_statements_eq] at hst
  simp only [List.mem_singleton] at hst
  subst hst
  refine ⟨rfl, ?_, ?_, ?_, rfl, by decide⟩ <;> simp [food_suggestion_statement]

/-- Witness for C7 at a concrete region and account. -/
theorem C7_policy_actions_minimal_witness :
    food_suggestion_statement "us-east-1" "123456789012" ∈
      (CdkStackStack "us-east-1" "123456789012").policies.flatMap
        Policy.statements ∧
    "dynamodb:CreateTable" ∉
      (food_suggestion_statement "us-east-1" "123456789012").actions :=
  ⟨by decide,
   (C7_policy_actions_minimal "us-east-1" "123456789012"
      (food_suggestion_statement "us-east-1" "123456789012") (by decide)).2.1⟩

/-- Claim C8: every declared Table and the Bucket carry removal policy
`DESTROY`. -/
theorem C8_removal_policy_destroy (region account : String) :
    (∀ t ∈ (CdkStackStack region account).tables,
        t.removal_policy = some RemovalPolicy.DESTROY) ∧
    ∀ b ∈ (CdkStackStack region account).buckets,
      b.removal_policy = some RemovalPolicy.DESTROY := by
  constructor
  · intro t ht
    rw [CdkStackStack_tables_eq] at ht
    simp only [List.mem_cons, List.mem_singleton, List.not_mem_nil, or_false] at ht
    rcases ht with h | h <;> subst h <;> rfl
  · intro b hb
    rw [CdkStackStack_buckets_eq] at hb
    simp only [List.mem_singleton] at hb
    subst hb
    rfl

/-- Witness for C8 at a concrete region and account. -/
theorem C8_removal_policy_destroy_witness :
    food ∈ (CdkStackStack "us-east-1" "123456789012").tables ∧
    food.removal_policy = some RemovalPolicy.DESTROY :=
  ⟨by decide,
   (C8_removal_policy_destroy "us-east-1" "123456789012").1 food (by decide)⟩

/-- Claim C9: the RestApi is built in explicit-resource mode (proxy
disabled) with the stack's single Function as the integration target, and
its CORS preflight configuration allows all origins, all methods, and the
default header allow-list. -/
theorem C9_rest_api_config (region account : String) :
    (CdkStackStack region account).rest_apis = [api_gateway] ∧
    api_gateway.proxy = false ∧
    (CdkStackStack region account).functions = [food_suggestion_function] ∧
    api_gateway.handler = food_suggestion_function.constructId ∧
    api_gateway.default_cors_preflight_options =
      some { allow_origins := Cors.ALL_ORIGINS
             allow_methods := Cors.ALL_METHODS
             allow_headers := Cors.DEFAULT_HEADERS } :=
  ⟨rfl, rfl, rfl, rfl, rfl⟩

/-- Claim C10: every table declared in the stack has a partition key named
`id` of string type and no sort key. -/
theorem C10_uniform_key_schema (region account : String) :
    ∀ t ∈ (CdkStackStack region account).tables,
      t.partition_key = { name := "id", type := AttributeType.STRING } ∧
      t.sort_key = none := by
  intro t ht
  rw [CdkStackStack_tables_eq] at ht
  simp only [List.mem_cons, List.mem_singleton, List.not_mem_nil, or_false] at ht
  rcases ht with h | h <;> subst h <;> exact ⟨rfl, rfl⟩

/-- Witness for C10 at a concrete region and account. -/
theorem C10_uniform_key_schema_witness :
    user ∈ (CdkStackStack "us-east-1" "123456789012").tables ∧
    user.partition_key = { name := "id", type := AttributeType.STRING } ∧
    user.sort_key = none :=
  ⟨by decide,
   (C10_uniform_key_schema "us-east-1" "123456789012" user (by decide)).1,
   (C10_uniform_key_schema "us-east-1" "123456789012" user (by decide)).2⟩

end CdkModel
